import Mathlib

/-!
Verification development for `onair-link.py`: a shallow embedding of the
mixer profile table, the ProDJ-Link packet encoders and the MIDI fader
state engine, together with theorems about the engine's behaviour.
-/

set_option linter.unusedVariables false

/-- Events delivered by the MIDI transport: a controller (ControlChange)
event carrying `param` and `value`, a note-on event carrying `note` and
`velocity`, or any other event type (those fall into the final `else`
branch of the handler). -/
inductive Event where
  | controller (param : Nat) (value : Nat)
  | noteon (note : Nat) (velocity : Nat)
  | other
deriving DecidableEq

/-- The `xfader_channel` field: `'A'`, `'B'` or `'AB'` in the source. -/
inductive XfaderChannel where
  | A
  | B
  | AB
deriving DecidableEq

/-- One DJM mixer profile: the per-model enum classes of the source.
`CH_FADER` and `FADER_START1_NOTE` are `none` on models whose class does
not define the member.  What reading an absent member does depends on the
class: `DJM250MK2` and `DJM450` subclass `DJMEnumBase`, whose metaclass
`DJMEnumMeta` turns the failed lookup into `None`; `DJM750`, `DJM750MK2`
and `DJM850` are plain `IntEnum` classes, so reading an absent member
raises `AttributeError`.  `djm_meta` records which of the two a profile
is; the raising reads themselves are modelled by `wait_handle_raises`. -/
structure DjmEnum where
  CH_MAX : Nat
  CROSS_FADER : Nat
  CH1_FADER : Nat
  FIRST_CROSS_FADER_ASSIGN : Nat
  CH_FADER : Option Nat := none
  FADER_START1_NOTE : Option Nat := none
  djm_meta : Bool
deriving DecidableEq

def DJM250MK2 : DjmEnum :=
  { CH_MAX := 2, CROSS_FADER := 0xB, CH1_FADER := 0x11, FIRST_CROSS_FADER_ASSIGN := 0x60,
    djm_meta := true }

def DJM450 : DjmEnum :=
  { CH_MAX := 2, CROSS_FADER := 0xB, CH1_FADER := 0x11, FIRST_CROSS_FADER_ASSIGN := 0x60,
    djm_meta := true }

/-- Plain `IntEnum` without `DJMEnumMeta`: it defines no
`FADER_START1_NOTE` member, so reading that attribute raises. -/
def DJM750 : DjmEnum :=
  { CH_MAX := 4, CROSS_FADER := 11, CH1_FADER := 17, FIRST_CROSS_FADER_ASSIGN := 65,
    CH_FADER := some 94, djm_meta := false }

/-- Plain `IntEnum` without `DJMEnumMeta`: it defines no
`FADER_START1_NOTE` member, so reading that attribute raises. -/
def DJM750MK2 : DjmEnum :=
  { CH_MAX := 4, CROSS_FADER := 0xB, CH1_FADER := 0x11, FIRST_CROSS_FADER_ASSIGN := 0x41,
    CH_FADER := some 0x5E, djm_meta := false }

def DJM850 : DjmEnum :=
  { CH_MAX := 4, CROSS_FADER := 11, CH1_FADER := 17, FIRST_CROSS_FADER_ASSIGN := 65,
    CH_FADER := some 94, FADER_START1_NOTE := some 102, djm_meta := false }

/-- UTF-8 encoding of a single character, as Python's `str.encode()`
produces for each code point. -/
def utf8Bytes (c : Char) : List Nat :=
  let n := c.toNat
  if n < 128 then [n]
  else if n < 2048 then [192 + n / 64, 128 + n % 64]
  else if n < 65536 then [224 + n / 4096, 128 + n / 64 % 64, 128 + n % 64]
  else [240 + n / 262144, 128 + n / 4096 % 64, 128 + n / 64 % 64, 128 + n % 64]

def DEVICE_NAME : String := "On Air Link"

namespace ProDjLink

def _HEADER : List Nat := [0x51, 0x73, 0x70, 0x74, 0x31, 0x57, 0x6D, 0x4A, 0x4F, 0x4C]

def _MAX_DEVICE_NAME_LEN : Nat := 20

/-- `device_name.ljust(20, '\0')`, then the slice `[0:20]`, then
`.encode()`: Python pads and slices by characters (code points) and only
then UTF-8-encodes the result. -/
def _format_device_name (device_name : String) : List Nat :=
  let padded := device_name.data
    ++ List.replicate (_MAX_DEVICE_NAME_LEN - device_name.data.length) (Char.ofNat 0)
  ((padded.take _MAX_DEVICE_NAME_LEN).map utf8Bytes).flatten

/-- The on-air packet: header, type byte `0x03`, formatted device name,
tag `01 00 00 00 09`, one byte per channel, five trailing zero bytes. -/
def onair_pkt (device_name : String) (onair_ch : List Bool) : List Nat :=
  _HEADER ++ [0x03] ++ _format_device_name device_name ++ [0x01, 0, 0, 0, 0x09]
    ++ onair_ch.map (fun b => if b then 1 else 0) ++ [0, 0, 0, 0, 0]

/-- The fader-start packet: header, type byte `0x02`, formatted device
name, tag `01 00 00 00 04`, then `[2,2,2,2]` with entry `channel`
replaced by `1` (stop) or `0` (play). -/
def fader_start_pkt (device_name : String) (channel : Nat) (stop : Bool) : List Nat :=
  let ch_state := (List.replicate 4 2).set channel (if stop then 1 else 0)
  _HEADER ++ [0x02] ++ _format_device_name device_name ++ [0x01, 0, 0, 0, 0x04] ++ ch_state

end ProDjLink

/-- The mutable fields of `MidiMain` that the event handler reads or
writes (the ALSA client/port handles are transport, outside the model). -/
structure MidiState where
  xfader_value : Nat
  xfader_channel : XfaderChannel
  cross_fader_assign : List Nat
  fader_value : List Nat
  onair_fader : List Bool
  fader_th : Nat
  last_fader_start_pkt : Option (List Nat)
  last_onair_pkt : Option (List Nat)
  prev_event : Option Event
deriving DecidableEq

namespace MidiMain

def FADER_TRESHOLD : Nat := 1

def CH_FADER_LOW_SLOPE_THRESHOLD : Nat := 2

/-- The field initialisation performed by `MidiMain.__init__`. -/
def initState (djm_enum : DjmEnum) : MidiState where
  xfader_value := 64
  xfader_channel := .AB
  cross_fader_assign := List.replicate djm_enum.CH_MAX 64
  fader_value := List.replicate djm_enum.CH_MAX 0
  onair_fader := List.replicate djm_enum.CH_MAX false
  fader_th := FADER_TRESHOLD
  last_fader_start_pkt := none
  last_onair_pkt := none
  prev_event := none

/-- `MidiMain.__update_onair_fader`: for each index in `upd_idx`, set
`onair_fader[i] = fader_value[i] >= fader_th + int(direction_down)`. -/
def update_onair_fader (s : MidiState) (direction_down : Bool) (fader_th : Nat)
    (upd_idx : List Nat) : MidiState :=
  let upd := fun (acc : List Bool) (i : Nat) =>
    acc.set i (decide (s.fader_value.getD i 0 ≥ fader_th + (if direction_down then 1 else 0)))
  { s with onair_fader := upd_idx.foldl upd s.onair_fader }

/-- `MidiMain._get_onair_xfader`: the per-channel cross-fader gate.  Note
that the `'AB'` branch returns a literal `[True] * 4` regardless of the
channel count, exactly as the source does. -/
def _get_onair_xfader (s : MidiState) : List Bool :=
  match s.xfader_channel with
  | .A => s.cross_fader_assign.map (fun v => decide (v ≤ 64))
  | .B => s.cross_fader_assign.map (fun v => decide (v ≥ 64))
  | .AB => List.replicate 4 true

/-- The on-air vector `[vf & vx for vf, vx in zip(onair_fader, _get_onair_xfader())]`
(Python's `zip` truncates to the shorter list, as `zipWith` does). -/
def onair_vector (s : MidiState) : List Bool :=
  List.zipWith (fun vf vx => vf && vx) s.onair_fader (_get_onair_xfader s)

/-- The cross-fader region decision of the `CROSS_FADER` branch, as a
function of the stored `xfader_value` and the incoming value. -/
def xfaderRegion (prev_value v : Nat) : XfaderChannel :=
  if v ≤ FADER_TRESHOLD - (if v > prev_value then 1 else 0) then .A
  else if v ≥ 127 - (FADER_TRESHOLD - (if v < prev_value then 1 else 0)) then .B
  else .AB

/-- The `prev_event`-driven cross-fader-assign side effect of the
fader-start note branch (source lines 238-242). -/
def noteAssignUpdate (djm_enum : DjmEnum) (i : Nat) (s : MidiState) : MidiState :=
  match s.prev_event with
  | some (.controller pparam pvalue) =>
    if pparam = djm_enum.CROSS_FADER then
      { s with cross_fader_assign :=
          s.cross_fader_assign.set i (if pvalue ≥ 64 then 0 else 127) }
    else if djm_enum.CH1_FADER ≤ pparam ∧ pparam < djm_enum.CH1_FADER + djm_enum.CH_MAX then
      { s with cross_fader_assign := s.cross_fader_assign.set i 64 }
    else s
  | _ => s

/-- The event-shape dispatch of `wait_handle_input_event` (source lines
197-247): returns the updated state, the packet assigned to `out_pkt` by
this part (`[]` when none), and the `send_onair_pkt` flag. -/
def midiBranch (djm_enum : DjmEnum) (s : MidiState) (event : Event) :
    MidiState × List Nat × Bool :=
  match event with
  | .controller param value =>
    if param = djm_enum.CROSS_FADER then
      ({ s with xfader_channel := xfaderRegion s.xfader_value value, xfader_value := value },
       [], true)
    else if djm_enum.CH1_FADER ≤ param ∧ param < djm_enum.CH1_FADER + djm_enum.CH_MAX then
      let i := param - djm_enum.CH1_FADER
      let direction_down := decide (value < s.fader_value.getD i 0)
      let s' := { s with fader_value := s.fader_value.set i value }
      (update_onair_fader s' direction_down s'.fader_th [i], [], true)
    else if djm_enum.FIRST_CROSS_FADER_ASSIGN ≤ param ∧
        param < djm_enum.FIRST_CROSS_FADER_ASSIGN + djm_enum.CH_MAX then
      if djm_enum.CH_MAX = 2 then
        ({ s with cross_fader_assign :=
            (s.cross_fader_assign.set 0 value).set 1 (127 - value) }, [], true)
      else
        ({ s with cross_fader_assign :=
            s.cross_fader_assign.set (param - djm_enum.FIRST_CROSS_FADER_ASSIGN) value },
         [], true)
    else if djm_enum.CH_FADER = some param then
      let new_fader_th := if value ≥ 64 then FADER_TRESHOLD else CH_FADER_LOW_SLOPE_THRESHOLD
      let s' :=
        if s.fader_th ≠ new_fader_th then
          update_onair_fader s (decide (new_fader_th > s.fader_th)) new_fader_th [0, 1, 2, 3]
        else s
      ({ s' with fader_th := new_fader_th }, [], true)
    else (s, [], false)
  | .noteon note velocity =>
    match djm_enum.FADER_START1_NOTE with
    | some base =>
      if base ≠ 0 ∧ base ≤ note ∧ note < base + djm_enum.CH_MAX then
        let pkt := ProDjLink.fader_start_pkt DEVICE_NAME (note - base) (decide (velocity = 0))
        let out := if some pkt ≠ s.last_fader_start_pkt then pkt else []
        (noteAssignUpdate djm_enum (note - base) { s with last_fader_start_pkt := some pkt },
         out, true)
      else (s, [], false)
    | none => (s, [], false)
  | .other => (s, [], false)

/-- `if self.prev_event == None: self.prev_event = event` (source lines
192-193). -/
def fixPrev (s : MidiState) (event : Event) : MidiState :=
  if s.prev_event = none then { s with prev_event := some event } else s

/-- The on-air emission block (source lines 249-254): when
`send_onair_pkt`, encode the current on-air vector, overwrite `out_pkt`
with it if it differs from the cache, and always update the cache. -/
def onairStage (s : MidiState) (out_pkt : List Nat) (send_onair_pkt : Bool) :
    MidiState × List Nat :=
  if send_onair_pkt then
    let pkt := ProDjLink.onair_pkt DEVICE_NAME (onair_vector s)
    ({ s with last_onair_pkt := some pkt },
     if some pkt ≠ s.last_onair_pkt then pkt else out_pkt)
  else (s, out_pkt)

/-- `MidiMain.wait_handle_input_event`, with the transport I/O stripped:
takes the already-received event and returns the updated state together
with the returned `out_pkt` bytes (`[]` models the empty `b''`). -/
def wait_handle_input_event (djm_enum : DjmEnum) (s : MidiState) (event : Event) :
    MidiState × List Nat :=
  let s1 := fixPrev s event
  let r := midiBranch djm_enum s1 event
  let r2 := onairStage r.1 r.2.1 r.2.2
  ({ r2.1 with prev_event := some event }, r2.2)

/-- Folding a list of events through the handler, keeping only the state. -/
def runEvents (djm_enum : DjmEnum) (s : MidiState) (events : List Event) : MidiState :=
  events.foldl (fun s ev => (wait_handle_input_event djm_enum s ev).1) s

/-- Whether an event falls into one of the recognized branches of the
handler for the given profile (i.e. any branch that keeps
`send_onair_pkt` true); everything else is consumed as a no-op. -/
def isRecognized (djm_enum : DjmEnum) (event : Event) : Bool :=
  match event with
  | .controller param _ =>
    decide (param = djm_enum.CROSS_FADER) ||
    (decide (djm_enum.CH1_FADER ≤ param) &&
      decide (param < djm_enum.CH1_FADER + djm_enum.CH_MAX)) ||
    (decide (djm_enum.FIRST_CROSS_FADER_ASSIGN ≤ param) &&
      decide (param < djm_enum.FIRST_CROSS_FADER_ASSIGN + djm_enum.CH_MAX)) ||
    decide (djm_enum.CH_FADER = some param)
  | .noteon note _ =>
    match djm_enum.FADER_START1_NOTE with
    | some base =>
      decide (base ≠ 0) && decide (base ≤ note) &&
        decide (note < base + djm_enum.CH_MAX)
    | none => false
  | .other => false

/-- The sum of the first two cross-fader-assign entries (the whole array
for a 2-channel profile). -/
def assignSum (l : List Nat) : Nat := l.getD 0 0 + l.getD 1 0

/-- Whether a call of `wait_handle_input_event` raises an uncaught
`AttributeError` reading an absent enum member on a plain-`IntEnum`
profile (no `DJMEnumMeta`).  The `try` in the source wraps only
`event_input`, so such an exception escapes the handler.  Two reads can
raise: `FADER_START1_NOTE` (source line 229), reached by every NOTEON
event, and `CH_FADER` (source line 219), reached by a controller event
only after the cross-fader, channel-fader and assign checks all failed. -/
def wait_handle_raises (djm_enum : DjmEnum) (event : Event) : Bool :=
  match event with
  | .controller param _ =>
    !djm_enum.djm_meta && djm_enum.CH_FADER.isNone &&
      !(decide (param = djm_enum.CROSS_FADER)) &&
      !(decide (djm_enum.CH1_FADER ≤ param) &&
        decide (param < djm_enum.CH1_FADER + djm_enum.CH_MAX)) &&
      !(decide (djm_enum.FIRST_CROSS_FADER_ASSIGN ≤ param) &&
        decide (param < djm_enum.FIRST_CROSS_FADER_ASSIGN + djm_enum.CH_MAX))
  | .noteon _ _ => !djm_enum.djm_meta && djm_enum.FADER_START1_NOTE.isNone
  | .other => false

/-- `wait_handle_input_event` including the exception path: `none` models
an `AttributeError` escaping the handler (the program then exits via the
outer handler); `some` is a normal return. -/
def wait_handle_input_event_checked (djm_enum : DjmEnum) (s : MidiState) (event : Event) :
    Option (MidiState × List Nat) :=
  if wait_handle_raises djm_enum event then none
  else some (wait_handle_input_event djm_enum s event)

end MidiMain


/-! ### Helper lemmas about the engine's stages -/

namespace MidiMain

theorem fixPrev_xfader_value (s : MidiState) (ev : Event) :
    (fixPrev s ev).xfader_value = s.xfader_value := by
  unfold fixPrev; split <;> rfl

theorem fixPrev_xfader_channel (s : MidiState) (ev : Event) :
    (fixPrev s ev).xfader_channel = s.xfader_channel := by
  unfold fixPrev; split <;> rfl

theorem fixPrev_cross_fader_assign (s : MidiState) (ev : Event) :
    (fixPrev s ev).cross_fader_assign = s.cross_fader_assign := by
  unfold fixPrev; split <;> rfl

theorem fixPrev_fader_value (s : MidiState) (ev : Event) :
    (fixPrev s ev).fader_value = s.fader_value := by
  unfold fixPrev; split <;> rfl

theorem fixPrev_onair_fader (s : MidiState) (ev : Event) :
    (fixPrev s ev).onair_fader = s.onair_fader := by
  unfold fixPrev; split <;> rfl

theorem fixPrev_fader_th (s : MidiState) (ev : Event) :
    (fixPrev s ev).fader_th = s.fader_th := by
  unfold fixPrev; split <;> rfl

theorem fixPrev_last_fader_start_pkt (s : MidiState) (ev : Event) :
    (fixPrev s ev).last_fader_start_pkt = s.last_fader_start_pkt := by
  unfold fixPrev; split <;> rfl

theorem fixPrev_last_onair_pkt (s : MidiState) (ev : Event) :
    (fixPrev s ev).last_onair_pkt = s.last_onair_pkt := by
  unfold fixPrev; split <;> rfl

theorem fixPrev_of_some (s : MidiState) (ev : Event) (h : s.prev_event ≠ none) :
    fixPrev s ev = s := by
  unfold fixPrev; exact if_neg h

theorem onairStage_fst_xfader_value (s : MidiState) (o : List Nat) (b : Bool) :
    (onairStage s o b).1.xfader_value = s.xfader_value := by
  unfold onairStage; split <;> rfl

theorem onairStage_fst_xfader_channel (s : MidiState) (o : List Nat) (b : Bool) :
    (onairStage s o b).1.xfader_channel = s.xfader_channel := by
  unfold onairStage; split <;> rfl

theorem onairStage_fst_cross_fader_assign (s : MidiState) (o : List Nat) (b : Bool) :
    (onairStage s o b).1.cross_fader_assign = s.cross_fader_assign := by
  unfold onairStage; split <;> rfl

theorem onairStage_fst_fader_value (s : MidiState) (o : List Nat) (b : Bool) :
    (onairStage s o b).1.fader_value = s.fader_value := by
  unfold onairStage; split <;> rfl

theorem onairStage_fst_onair_fader (s : MidiState) (o : List Nat) (b : Bool) :
    (onairStage s o b).1.onair_fader = s.onair_fader := by
  unfold onairStage; split <;> rfl

theorem onairStage_fst_fader_th (s : MidiState) (o : List Nat) (b : Bool) :
    (onairStage s o b).1.fader_th = s.fader_th := by
  unfold onairStage; split <;> rfl

theorem onairStage_fst_last_fader_start_pkt (s : MidiState) (o : List Nat) (b : Bool) :
    (onairStage s o b).1.last_fader_start_pkt = s.last_fader_start_pkt := by
  unfold onairStage; split <;> rfl

theorem midiBranch_fst_last_onair_pkt (e : DjmEnum) (s : MidiState) (ev : Event) :
    (midiBranch e s ev).1.last_onair_pkt = s.last_onair_pkt := by
  cases ev <;> simp only [midiBranch, noteAssignUpdate, update_onair_fader]
  all_goals repeat' split
  all_goals rfl

theorem midiBranch_fst_prev_event (e : DjmEnum) (s : MidiState) (ev : Event) :
    (midiBranch e s ev).1.prev_event = s.prev_event := by
  cases ev <;> simp only [midiBranch, noteAssignUpdate, update_onair_fader]
  all_goals repeat' split
  all_goals rfl

theorem midiBranch_out_shape (e : DjmEnum) (s : MidiState) (ev : Event) :
    (midiBranch e s ev).2.1 = [] ∨
      ∃ i st, (midiBranch e s ev).2.1 = ProDjLink.fader_start_pkt DEVICE_NAME i st := by
  cases ev <;> simp only [midiBranch]
  all_goals repeat' split
  all_goals first
    | exact Or.inl rfl
    | exact Or.inl trivial
    | exact Or.inr ⟨_, _, rfl⟩

theorem midiBranch_cross (e : DjmEnum) (s : MidiState) (v : Nat) :
    midiBranch e s (.controller e.CROSS_FADER v) =
      ({ s with xfader_channel := xfaderRegion s.xfader_value v, xfader_value := v },
       [], true) := by
  simp [midiBranch]

theorem midiBranch_chfader (e : DjmEnum) (s : MidiState) (i v : Nat)
    (hi : i < e.CH_MAX) (hne : e.CH1_FADER + i ≠ e.CROSS_FADER) :
    midiBranch e s (.controller (e.CH1_FADER + i) v) =
      (update_onair_fader { s with fader_value := s.fader_value.set i v }
        (decide (v < s.fader_value.getD i 0)) s.fader_th [i], [], true) := by
  simp only [midiBranch]
  rw [if_neg hne, if_pos ⟨Nat.le_add_right _ _, Nat.add_lt_add_left hi _⟩]
  simp [Nat.add_sub_cancel_left]

theorem wait_fst_cross_fader_assign (e : DjmEnum) (s : MidiState) (ev : Event) :
    (wait_handle_input_event e s ev).1.cross_fader_assign
      = (midiBranch e (fixPrev s ev) ev).1.cross_fader_assign := by
  simp only [wait_handle_input_event]
  exact onairStage_fst_cross_fader_assign _ _ _

theorem wait_fst_xfader_channel (e : DjmEnum) (s : MidiState) (ev : Event) :
    (wait_handle_input_event e s ev).1.xfader_channel
      = (midiBranch e (fixPrev s ev) ev).1.xfader_channel := by
  simp only [wait_handle_input_event]
  exact onairStage_fst_xfader_channel _ _ _

theorem wait_fst_fader_value (e : DjmEnum) (s : MidiState) (ev : Event) :
    (wait_handle_input_event e s ev).1.fader_value
      = (midiBranch e (fixPrev s ev) ev).1.fader_value := by
  simp only [wait_handle_input_event]
  exact onairStage_fst_fader_value _ _ _

theorem wait_fst_onair_fader (e : DjmEnum) (s : MidiState) (ev : Event) :
    (wait_handle_input_event e s ev).1.onair_fader
      = (midiBranch e (fixPrev s ev) ev).1.onair_fader := by
  simp only [wait_handle_input_event]
  exact onairStage_fst_onair_fader _ _ _

theorem wait_fst_fader_th (e : DjmEnum) (s : MidiState) (ev : Event) :
    (wait_handle_input_event e s ev).1.fader_th
      = (midiBranch e (fixPrev s ev) ev).1.fader_th := by
  simp only [wait_handle_input_event]
  exact onairStage_fst_fader_th _ _ _

end MidiMain

theorem getD_set_self {α : Type} (l : List α) (i : Nat) (x d : α) (h : i < l.length) :
    (l.set i x).getD i d = x := by
  simp [List.getD_eq_getElem?_getD, List.getElem?_set_self, h]

theorem getD_set_ne {α : Type} (l : List α) (i j : Nat) (x d : α) (h : i ≠ j) :
    (l.set i x).getD j d = l.getD j d := by
  simp [List.getD_eq_getElem?_getD, List.getElem?_set_ne h]

namespace MidiMain

theorem xfaderRegion_zero (p : Nat) : xfaderRegion p 0 = .A := by
  unfold xfaderRegion
  rw [if_pos (Nat.zero_le _)]

theorem xfaderRegion_127 (p : Nat) : xfaderRegion p 127 = .B := by
  unfold xfaderRegion FADER_TRESHOLD
  rw [if_neg (by split <;> omega), if_pos (by split <;> omega)]

theorem xfaderRegion_mid (p v : Nat) (h2 : 2 ≤ v) (h125 : v ≤ 125) :
    xfaderRegion p v = .AB := by
  unfold xfaderRegion FADER_TRESHOLD
  rw [if_neg (by split <;> omega), if_neg (by split <;> omega)]

theorem wait_cross_region (e : DjmEnum) (s : MidiState) (v : Nat) :
    (wait_handle_input_event e s (.controller e.CROSS_FADER v)).1.xfader_channel
      = xfaderRegion s.xfader_value v := by
  rw [wait_fst_xfader_channel, midiBranch_cross]
  simp [fixPrev_xfader_value]

end MidiMain

open MidiMain ProDjLink

/-- C5: a cross-fader ControlChange with value 0 always sets the region to
LeftBound (`'A'`) and with value 127 always sets it to RightBound (`'B'`),
for every prior cross-fader value; a value in [2,125] arriving while the
region is Middle (`'AB'`) leaves the region Middle. -/
theorem C5_cross_fader_bounds (e : DjmEnum) (s : MidiState) (v : Nat) :
    (v = 0 →
      (wait_handle_input_event e s (.controller e.CROSS_FADER v)).1.xfader_channel
        = XfaderChannel.A) ∧
    (v = 127 →
      (wait_handle_input_event e s (.controller e.CROSS_FADER v)).1.xfader_channel
        = XfaderChannel.B) ∧
    (2 ≤ v → v ≤ 125 → s.xfader_channel = XfaderChannel.AB →
      (wait_handle_input_event e s (.controller e.CROSS_FADER v)).1.xfader_channel
        = XfaderChannel.AB) := by
  refine ⟨fun h => ?_, fun h => ?_, fun h2 h125 hab => ?_⟩
  · subst h; rw [wait_cross_region]; exact xfaderRegion_zero _
  · subst h; rw [wait_cross_region]; exact xfaderRegion_127 _
  · rw [wait_cross_region]; exact xfaderRegion_mid _ _ h2 h125

/-- Witness for C5 at concrete inputs (values 0, 127 and 64, the last from
the initial Middle state). -/
theorem C5_cross_fader_bounds_witness :
    (wait_handle_input_event DJM250MK2 (initState DJM250MK2)
        (.controller DJM250MK2.CROSS_FADER 0)).1.xfader_channel = XfaderChannel.A ∧
    (wait_handle_input_event DJM250MK2 (initState DJM250MK2)
        (.controller DJM250MK2.CROSS_FADER 127)).1.xfader_channel = XfaderChannel.B ∧
    (wait_handle_input_event DJM250MK2 (initState DJM250MK2)
        (.controller DJM250MK2.CROSS_FADER 64)).1.xfader_channel = XfaderChannel.AB :=
  ⟨(C5_cross_fader_bounds DJM250MK2 (initState DJM250MK2) 0).1 rfl,
   (C5_cross_fader_bounds DJM250MK2 (initState DJM250MK2) 127).2.1 rfl,
   (C5_cross_fader_bounds DJM250MK2 (initState DJM250MK2) 64).2.2
     (by decide) (by decide) rfl⟩

/-- C6: a channel-fader ControlChange at offset `i` with new value `v`
stores `fader_value[i] = v` and recomputes
`onair_fader[i] = v ≥ fader_th + (1 if v < old else 0)` where `old` is the
previously stored value: the +1 bias applies exactly when moving downward. -/
theorem C6_channel_fader_update (e : DjmEnum) (s : MidiState) (i v : Nat)
    (hi : i < e.CH_MAX) (hne : e.CH1_FADER + i ≠ e.CROSS_FADER)
    (hlf : s.fader_value.length = e.CH_MAX) (hlo : s.onair_fader.length = e.CH_MAX) :
    (wait_handle_input_event e s (.controller (e.CH1_FADER + i) v)).1.fader_value.getD i 0
      = v ∧
    (wait_handle_input_event e s (.controller (e.CH1_FADER + i) v)).1.onair_fader.getD i false
      = decide (v ≥ s.fader_th + (if v < s.fader_value.getD i 0 then 1 else 0)) := by
  constructor
  · rw [wait_fst_fader_value, midiBranch_chfader e _ i v hi hne]
    simp only [update_onair_fader]
    rw [fixPrev_fader_value]
    exact getD_set_self _ _ _ _ (by omega)
  · rw [wait_fst_onair_fader, midiBranch_chfader e _ i v hi hne]
    simp only [update_onair_fader, List.foldl_cons, List.foldl_nil]
    rw [fixPrev_onair_fader, fixPrev_fader_value, fixPrev_fader_th]
    rw [getD_set_self _ _ _ _ (by omega)]
    rw [getD_set_self _ _ _ _ (by omega)]
    by_cases hd : v < s.fader_value.getD i 0 <;> simp [hd]

/-- Witness for C6 at a concrete input. -/
theorem C6_channel_fader_update_witness :
    (wait_handle_input_event DJM250MK2 (initState DJM250MK2)
        (.controller (DJM250MK2.CH1_FADER + 1) 5)).1.fader_value.getD 1 0 = 5 ∧
    (wait_handle_input_event DJM250MK2 (initState DJM250MK2)
        (.controller (DJM250MK2.CH1_FADER + 1) 5)).1.onair_fader.getD 1 false
      = decide (5 ≥ (initState DJM250MK2).fader_th +
          (if 5 < (initState DJM250MK2).fader_value.getD 1 0 then 1 else 0)) :=
  C6_channel_fader_update DJM250MK2 (initState DJM250MK2) 1 5
    (by decide) (by decide) (by decide) (by decide)

/-- C7: the fader-start packet always carries a 4-entry tri-state array in
which every entry other than `channel` is 2 ("no change") and the entry at
`channel` is 1 if stopped else 0, independent of any channel count. -/
theorem C7_fader_start_tri_state (name : String) (channel : Nat) (stop : Bool)
    (h : channel < 4) :
    ∃ arr : List Nat,
      ProDjLink.fader_start_pkt name channel stop =
        ProDjLink._HEADER ++ [0x02] ++ ProDjLink._format_device_name name
          ++ [0x01, 0, 0, 0, 0x04] ++ arr ∧
      arr.length = 4 ∧
      arr.getD channel 0 = (if stop then 1 else 0) ∧
      (∀ j, j < 4 → j ≠ channel → arr.getD j 0 = 2) := by
  refine ⟨(List.replicate 4 2).set channel (if stop then 1 else 0), rfl, ?_⟩
  interval_cases channel <;> cases stop <;> decide

/-- Witness for C7 at a concrete input. -/
theorem C7_fader_start_tri_state_witness :
    ∃ arr : List Nat,
      ProDjLink.fader_start_pkt DEVICE_NAME 2 true =
        ProDjLink._HEADER ++ [0x02] ++ ProDjLink._format_device_name DEVICE_NAME
          ++ [0x01, 0, 0, 0, 0x04] ++ arr ∧
      arr.length = 4 ∧
      arr.getD 2 0 = (if true then 1 else 0) ∧
      (∀ j, j < 4 → j ≠ 2 → arr.getD j 0 = 2) :=
  C7_fader_start_tri_state DEVICE_NAME 2 true (by decide)

theorem fixPrev_override (s : MidiState) (ev : Event) (x : Option Event) :
    ({ fixPrev s ev with prev_event := x } : MidiState) = { s with prev_event := x } := by
  unfold fixPrev; split <;> rfl

theorem midiBranch_note_none (e : DjmEnum) (s : MidiState) (n vel : Nat)
    (hfsn : e.FADER_START1_NOTE = none) :
    midiBranch e s (.noteon n vel) = (s, [], false) := by
  simp only [midiBranch, hfsn]

theorem midiBranch_note_some_out (e : DjmEnum) (s : MidiState) (n vel base : Nat)
    (hfsn : e.FADER_START1_NOTE = some base)
    (hcond : ¬(base ≠ 0 ∧ base ≤ n ∧ n < base + e.CH_MAX)) :
    midiBranch e s (.noteon n vel) = (s, [], false) := by
  simp only [midiBranch, hfsn]
  rw [if_neg hcond]

theorem midiBranch_note_some_in (e : DjmEnum) (s : MidiState) (n vel base : Nat)
    (hfsn : e.FADER_START1_NOTE = some base)
    (hcond : base ≠ 0 ∧ base ≤ n ∧ n < base + e.CH_MAX) :
    midiBranch e s (.noteon n vel) =
      (noteAssignUpdate e (n - base)
         { s with last_fader_start_pkt := some (ProDjLink.fader_start_pkt DEVICE_NAME (n - base) (decide (vel = 0))) },
       if some (ProDjLink.fader_start_pkt DEVICE_NAME (n - base) (decide (vel = 0)))
           ≠ s.last_fader_start_pkt
         then ProDjLink.fader_start_pkt DEVICE_NAME (n - base) (decide (vel = 0)) else [],
       true) := by
  simp only [midiBranch, hfsn]
  rw [if_pos hcond]

/-- When a call does return (the `AttributeError` path of
`wait_handle_raises` aside), an event outside every recognized range of
the profile is a no-op apart from `prev_event`: no packet is returned (so
no on-air re-send either) and every other state field — the packet caches
included — is unchanged. -/
theorem unrecognized_noop_model (e : DjmEnum) (s : MidiState) (ev : Event)
    (h : MidiMain.isRecognized e ev = false) :
    wait_handle_input_event e s ev = ({ s with prev_event := some ev }, []) := by
  have hb : midiBranch e (fixPrev s ev) ev = (fixPrev s ev, [], false) := by
    cases ev with
    | controller p v =>
      simp only [isRecognized, Bool.or_eq_false_iff, Bool.and_eq_false_iff,
        decide_eq_false_iff_not] at h
      obtain ⟨⟨⟨h1, h2⟩, h3⟩, h4⟩ := h
      simp only [midiBranch]
      rw [if_neg h1, if_neg (by tauto), if_neg (by tauto), if_neg h4]
    | noteon n vel =>
      cases hfsn : e.FADER_START1_NOTE with
      | none => exact midiBranch_note_none e _ n vel hfsn
      | some base =>
        refine midiBranch_note_some_out e _ n vel base hfsn ?_
        simp only [isRecognized, hfsn, Bool.and_eq_false_iff,
          decide_eq_false_iff_not] at h
        omega
    | other => rfl
  simp only [wait_handle_input_event, hb, onairStage, Bool.false_eq_true, if_false]
  rw [fixPrev_override]

/-- `unrecognized_noop_model` at a concrete input: controller address 50
is outside every range of the DJM-250MK2 profile (and never raises there,
the class having `DJMEnumMeta`). -/
theorem unrecognized_noop_model_concrete :
    wait_handle_input_event DJM250MK2 (initState DJM250MK2) (.controller 50 10)
      = ({ initState DJM250MK2 with prev_event := some (.controller 50 10) }, []) :=
  unrecognized_noop_model DJM250MK2 (initState DJM250MK2) (.controller 50 10) (by decide)

/-- C9: code bug.  The claim (and spec section 7) says the handler never
raises on events outside every recognized range, and that is the evident
intent of `DJMEnumMeta` — but `DJM750` and `DJM750MK2` are plain `IntEnum`
classes without that metaclass and define no `FADER_START1_NOTE` member,
so with either profile active any NOTEON event (necessarily unrecognized,
those profiles having no note range at all) raises an uncaught
`AttributeError` at source line 229 instead of being a silent no-op.  On
the metaclass profiles (DJM-250MK2) and on the profile that defines the
member (DJM-850) the same read cannot raise and the claimed no-op holds. -/
theorem C9_noteon_attribute_error :
    MidiMain.isRecognized DJM750 (.noteon 102 0) = false ∧
    wait_handle_raises DJM750 (.noteon 102 0) = true ∧
    wait_handle_input_event_checked DJM750 (initState DJM750) (.noteon 102 0) = none ∧
    wait_handle_raises DJM750MK2 (.noteon 102 0) = true ∧
    wait_handle_input_event_checked DJM750MK2 (initState DJM750MK2) (.noteon 102 0)
      = none ∧
    wait_handle_raises DJM250MK2 (.noteon 102 0) = false ∧
    wait_handle_input_event_checked DJM250MK2 (initState DJM250MK2) (.noteon 102 0)
      = some ({ initState DJM250MK2 with prev_event := some (.noteon 102 0) }, []) ∧
    wait_handle_raises DJM850 (.noteon 300 0) = false ∧
    wait_handle_input_event_checked DJM850 (initState DJM850) (.noteon 300 0)
      = some ({ initState DJM850 with prev_event := some (.noteon 300 0) }, []) := by
  decide

/-- C10: `prev_event` equals the just-processed event after every call;
and on the very first event of a fresh engine (`prev_event = None`) the
handler first sets `prev_event` to the event itself, so a fader-start note
event arriving first never triggers the previous-event assignment
side-effect — `cross_fader_assign` is unchanged. -/
theorem C10_prev_event_self (e : DjmEnum) (s : MidiState) (ev : Event)
    (note velocity : Nat) :
    (wait_handle_input_event e s ev).1.prev_event = some ev ∧
    (s.prev_event = none →
      (wait_handle_input_event e s (.noteon note velocity)).1.cross_fader_assign
        = s.cross_fader_assign) := by
  constructor
  · rfl
  · intro h
    rw [wait_fst_cross_fader_assign]
    have hfix : fixPrev s (.noteon note velocity)
        = { s with prev_event := some (.noteon note velocity) } := by
      unfold fixPrev; rw [if_pos h]
    rw [hfix]
    cases hfsn : e.FADER_START1_NOTE with
    | none => rw [midiBranch_note_none e _ note velocity hfsn]
    | some base =>
      by_cases hc : base ≠ 0 ∧ base ≤ note ∧ note < base + e.CH_MAX
      · rw [midiBranch_note_some_in e _ note velocity base hfsn hc]
        rfl
      · rw [midiBranch_note_some_out e _ note velocity base hfsn hc]

/-- Witness for C10 at a concrete input: first-ever event is a fader-start
note on the DJM-850. -/
theorem C10_prev_event_self_witness :
    (wait_handle_input_event DJM850 (initState DJM850) (.noteon 102 0)).1.prev_event
      = some (.noteon 102 0) ∧
    (wait_handle_input_event DJM850 (initState DJM850) (.noteon 102 0)).1.cross_fader_assign
      = (initState DJM850).cross_fader_assign :=
  ⟨(C10_prev_event_self DJM850 (initState DJM850) (.noteon 102 0) 102 0).1,
   (C10_prev_event_self DJM850 (initState DJM850) (.noteon 102 0) 102 0).2 rfl⟩

/-- C8: for a fader-start note event at channel offset `i = note - base`:
if the immediately preceding processed event was a cross-fader position
change with value `pv`, then `assign[i]` is set to 0 when `pv ≥ 64` and to
127 otherwise; if it was a channel-fader-level change (any channel),
`assign[i]` is set to 64; in every other case (`controller` outside those
addresses, note event, or other event) `cross_fader_assign` is unchanged. -/
theorem C8_note_assign_heuristic (e : DjmEnum) (s : MidiState) (base note velocity : Nat)
    (hb : e.FADER_START1_NOTE = some base) (hb0 : base ≠ 0)
    (hlo : base ≤ note) (hhi : note < base + e.CH_MAX) :
    (∀ pv, s.prev_event = some (.controller e.CROSS_FADER pv) →
      (wait_handle_input_event e s (.noteon note velocity)).1.cross_fader_assign
        = s.cross_fader_assign.set (note - base) (if pv ≥ 64 then 0 else 127)) ∧
    (∀ p pv, s.prev_event = some (.controller p pv) → p ≠ e.CROSS_FADER →
      e.CH1_FADER ≤ p → p < e.CH1_FADER + e.CH_MAX →
      (wait_handle_input_event e s (.noteon note velocity)).1.cross_fader_assign
        = s.cross_fader_assign.set (note - base) 64) ∧
    (∀ p pv, s.prev_event = some (.controller p pv) → p ≠ e.CROSS_FADER →
      ¬(e.CH1_FADER ≤ p ∧ p < e.CH1_FADER + e.CH_MAX) →
      (wait_handle_input_event e s (.noteon note velocity)).1.cross_fader_assign
        = s.cross_fader_assign) ∧
    (∀ pn pvel, s.prev_event = some (.noteon pn pvel) →
      (wait_handle_input_event e s (.noteon note velocity)).1.cross_fader_assign
        = s.cross_fader_assign) ∧
    (s.prev_event = some .other →
      (wait_handle_input_event e s (.noteon note velocity)).1.cross_fader_assign
        = s.cross_fader_assign) := by
  have hstep : ∀ pe, s.prev_event = some pe →
      (wait_handle_input_event e s (.noteon note velocity)).1.cross_fader_assign
        = (noteAssignUpdate e (note - base)
            { s with last_fader_start_pkt := some (ProDjLink.fader_start_pkt DEVICE_NAME (note - base) (decide (velocity = 0))) }).cross_fader_assign := by
    intro pe hp
    rw [wait_fst_cross_fader_assign,
      fixPrev_of_some s _ (by rw [hp]; exact fun hh => Option.noConfusion hh),
      midiBranch_note_some_in e s note velocity base hb ⟨hb0, hlo, hhi⟩]
  refine ⟨fun pv hp => ?_, fun p pv hp hne h1 h2 => ?_, fun p pv hp hne hnr => ?_,
    fun pn pvel hp => ?_, fun hp => ?_⟩
  · rw [hstep _ hp]
    simp only [noteAssignUpdate]
    rw [hp]
    simp
  · rw [hstep _ hp]
    simp only [noteAssignUpdate]
    rw [hp]
    simp [hne, h1, h2]
  · rw [hstep _ hp]
    simp only [noteAssignUpdate]
    rw [hp]
    simp [hne, hnr]
  · rw [hstep _ hp]
    simp only [noteAssignUpdate]
    rw [hp]
  · rw [hstep _ hp]
    simp only [noteAssignUpdate]
    rw [hp]

/-- Witness for C8 at a concrete input: on the DJM-850, a fader-start note
for channel 2 right after a cross-fader move to 100 sets `assign[1]` to 0. -/
theorem C8_note_assign_heuristic_witness :
    (wait_handle_input_event DJM850 { initState DJM850 with prev_event := some (.controller 11 100) } (.noteon 103 0)).1.cross_fader_assign
      = ({ initState DJM850 with prev_event := some (.controller 11 100) } : MidiState).cross_fader_assign.set 1 (if 100 ≥ 64 then 0 else 127) :=
  (C8_note_assign_heuristic DJM850
      { initState DJM850 with prev_event := some (.controller 11 100) } 102 103 0
      rfl (by decide) (by decide) (by decide)).1 100 rfl

theorem utf8Bytes_ascii (c : Char) (h : c.toNat < 128) : utf8Bytes c = [c.toNat] := by
  unfold utf8Bytes
  rw [if_pos h]

theorem flatten_map_utf8_length (l : List Char) (h : ∀ c ∈ l, c.toNat < 128) :
    ((l.map utf8Bytes).flatten).length = l.length := by
  induction l with
  | nil => rfl
  | cons c cs ih =>
    simp only [List.map_cons, List.flatten_cons, List.length_append]
    rw [utf8Bytes_ascii c (h c (List.mem_cons_self c cs))]
    rw [ih (fun x hx => h x (List.mem_cons_of_mem _ hx))]
    show 1 + cs.length = (c :: cs).length
    simp only [List.length_cons]
    omega

/-- C2 counterexample: Python pads/slices the name by characters, not
bytes.  The 11-character name `"ééééééééééé"` UTF-8-encodes to 22 bytes
(> 20), yet the formatted name is 31 bytes, not 20, and the resulting
on-air packet is longer than the one for the 11-character ASCII default
name with the same channel vector. -/
theorem C2_counterexample :
    ("ééééééééééé".data.map utf8Bytes).flatten.length = 22 ∧
    (ProDjLink._format_device_name "ééééééééééé").length = 31 ∧
    (ProDjLink._format_device_name "ééééééééééé").length ≠ 20 ∧
    (ProDjLink.onair_pkt "ééééééééééé" [true, false]).length = 54 ∧
    (ProDjLink.onair_pkt DEVICE_NAME [true, false]).length = 43 := by decide

/-- C2 (amended): the encoders are total (never raise) and pad/truncate
the name to exactly 20 characters; for a name made of ASCII characters the
encoded name is exactly 20 bytes, so the on-air packet has 41 + channels
bytes and the fader-start packet exactly 40 bytes, independent of the
name's length.  (A non-ASCII name can exceed 20 bytes — see the
counterexample.) -/
theorem C2_device_name_amended (name : String) (oc : List Bool) (channel : Nat)
    (stop : Bool) (h : ∀ c ∈ name.data, c.toNat < 128) :
    (ProDjLink._format_device_name name).length = 20 ∧
    (ProDjLink.onair_pkt name oc).length = 41 + oc.length ∧
    (ProDjLink.fader_start_pkt name channel stop).length = 40 := by
  have hfmt : (ProDjLink._format_device_name name).length = 20 := by
    unfold ProDjLink._format_device_name ProDjLink._MAX_DEVICE_NAME_LEN
    rw [flatten_map_utf8_length]
    · rw [List.length_take, List.length_append, List.length_replicate]
      omega
    · intro c hc
      rcases List.mem_append.mp (List.mem_of_mem_take hc) with h1 | h2
      · exact h c h1
      · rw [List.eq_of_mem_replicate h2]; decide
  refine ⟨hfmt, ?_, ?_⟩
  · simp [ProDjLink.onair_pkt, ProDjLink._HEADER, hfmt]
    omega
  · simp [ProDjLink.fader_start_pkt, ProDjLink._HEADER, hfmt, List.length_set,
      List.length_replicate]

/-- Witness for C2 (amended) at the concrete default device name. -/
theorem C2_device_name_amended_witness :
    (ProDjLink._format_device_name DEVICE_NAME).length = 20 ∧
    (ProDjLink.onair_pkt DEVICE_NAME [true, false]).length = 41 + 2 ∧
    (ProDjLink.fader_start_pkt DEVICE_NAME 0 false).length = 40 :=
  C2_device_name_amended DEVICE_NAME [true, false] 0 false (by decide)

theorem exists_two {α : Type} (l : List α) (h : l.length = 2) : ∃ a b, l = [a, b] :=
  match l, h with
  | [a, b], _ => ⟨a, b, rfl⟩

theorem midiBranch_assign2 (e : DjmEnum) (s : MidiState) (p v : Nat)
    (h2 : e.CH_MAX = 2) (hne : p ≠ e.CROSS_FADER)
    (hnf : ¬(e.CH1_FADER ≤ p ∧ p < e.CH1_FADER + e.CH_MAX))
    (ha : e.FIRST_CROSS_FADER_ASSIGN ≤ p ∧ p < e.FIRST_CROSS_FADER_ASSIGN + e.CH_MAX) :
    midiBranch e s (.controller p v) =
      ({ s with cross_fader_assign := (s.cross_fader_assign.set 0 v).set 1 (127 - v) },
       [], true) := by
  simp only [midiBranch]
  rw [if_neg hne, if_neg hnf, if_pos ha, if_pos h2]

/-- C3 counterexample: the invariant `assign[0] + assign[1] == 127` fails
in the initial state of a 2-channel profile, where `__init__` sets
`cross_fader_assign = [64, 64]` (sum 128). -/
theorem C3_counterexample :
    (initState DJM250MK2).cross_fader_assign = [64, 64] ∧
    assignSum (initState DJM250MK2).cross_fader_assign = 128 ∧
    assignSum (initState DJM250MK2).cross_fader_assign ≠ 127 := by decide

/-- C3 (amended): for a 2-channel profile, a cross-fader-assign
ControlChange with value `v ≤ 127` yields `assign = [v, 127 − v]`, and the
invariant `assign[0] + assign[1] == 127`, once established, is preserved
by every event (values in the hardware range).  It does NOT hold in the
initial state, whose `assign = [64, 64]` sums to 128. -/
theorem C3_assign_symmetry_amended (e : DjmEnum) (s : MidiState) (p v : Nat)
    (h2 : e.CH_MAX = 2) (hfs : e.FADER_START1_NOTE = none)
    (hlen : s.cross_fader_assign.length = 2) :
    (v ≤ 127 → e.FIRST_CROSS_FADER_ASSIGN ≤ p →
      p < e.FIRST_CROSS_FADER_ASSIGN + e.CH_MAX →
      p ≠ e.CROSS_FADER → ¬(e.CH1_FADER ≤ p ∧ p < e.CH1_FADER + e.CH_MAX) →
      (wait_handle_input_event e s (.controller p v)).1.cross_fader_assign
        = [v, 127 - v]) ∧
    (∀ ev : Event, (∀ q w, ev = .controller q w → w ≤ 127) →
      assignSum s.cross_fader_assign = 127 →
      assignSum (wait_handle_input_event e s ev).1.cross_fader_assign = 127) := by
  constructor
  · intro hv ha1 ha2 hne hnf
    rw [wait_fst_cross_fader_assign, midiBranch_assign2 e _ p v h2 hne hnf ⟨ha1, ha2⟩]
    show ((fixPrev s _).cross_fader_assign.set 0 v).set 1 (127 - v) = [v, 127 - v]
    rw [fixPrev_cross_fader_assign]
    obtain ⟨a, b, hab⟩ := exists_two s.cross_fader_assign hlen
    rw [hab]
    rfl
  · intro ev hvok hsum
    rw [wait_fst_cross_fader_assign]
    cases ev with
    | other =>
      show assignSum (fixPrev s _).cross_fader_assign = 127
      rw [fixPrev_cross_fader_assign]; exact hsum
    | noteon n vel =>
      rw [midiBranch_note_none e _ n vel hfs]
      show assignSum (fixPrev s _).cross_fader_assign = 127
      rw [fixPrev_cross_fader_assign]; exact hsum
    | controller q w =>
      have hw : w ≤ 127 := hvok q w rfl
      by_cases hc : q = e.CROSS_FADER
      · subst hc
        rw [midiBranch_cross]
        show assignSum (fixPrev s _).cross_fader_assign = 127
        rw [fixPrev_cross_fader_assign]; exact hsum
      · by_cases hf : e.CH1_FADER ≤ q ∧ q < e.CH1_FADER + e.CH_MAX
        · simp only [midiBranch]
          rw [if_neg hc, if_pos hf]
          simp only [update_onair_fader]
          show assignSum (fixPrev s _).cross_fader_assign = 127
          rw [fixPrev_cross_fader_assign]; exact hsum
        · by_cases hass : e.FIRST_CROSS_FADER_ASSIGN ≤ q ∧
              q < e.FIRST_CROSS_FADER_ASSIGN + e.CH_MAX
          · rw [midiBranch_assign2 e _ q w h2 hc hf hass]
            show assignSum
              (((fixPrev s _).cross_fader_assign.set 0 w).set 1 (127 - w)) = 127
            rw [fixPrev_cross_fader_assign]
            obtain ⟨a, b, hab⟩ := exists_two s.cross_fader_assign hlen
            rw [hab]
            show w + (127 - w) = 127
            omega
          · by_cases hsl : e.CH_FADER = some q
            · simp only [midiBranch]
              rw [if_neg hc, if_neg hf, if_neg hass, if_pos hsl]
              repeat' split
              all_goals show assignSum (fixPrev s _).cross_fader_assign = 127
              all_goals rw [fixPrev_cross_fader_assign]
              all_goals exact hsum
            · simp only [midiBranch]
              rw [if_neg hc, if_neg hf, if_neg hass, if_neg hsl]
              show assignSum (fixPrev s _).cross_fader_assign = 127
              rw [fixPrev_cross_fader_assign]; exact hsum

/-- Witness for C3 (amended) at concrete inputs on the DJM-250MK2. -/
theorem C3_assign_symmetry_amended_witness :
    (wait_handle_input_event DJM250MK2
        { initState DJM250MK2 with cross_fader_assign := [0, 127] }
        (.controller 96 30)).1.cross_fader_assign = [30, 127 - 30] ∧
    assignSum (wait_handle_input_event DJM250MK2
        { initState DJM250MK2 with cross_fader_assign := [0, 127] }
        (.controller 11 5)).1.cross_fader_assign = 127 :=
  ⟨(C3_assign_symmetry_amended DJM250MK2
      { initState DJM250MK2 with cross_fader_assign := [0, 127] } 96 30
      rfl rfl (by decide)).1 (by decide) (by decide) (by decide) (by decide) (by decide),
   (C3_assign_symmetry_amended DJM250MK2
      { initState DJM250MK2 with cross_fader_assign := [0, 127] } 11 5
      rfl rfl (by decide)).2 (.controller 11 5)
      (fun q w hqw => by cases hqw; decide) (by decide)⟩

/-- C1 counterexample: a note event for which both the fader-start packet
and the on-air packet fire yields only ONE packet — `out_pkt` is a single
byte string and the on-air assignment overwrites the fader-start packet.
After fader ch1 up and cross-fader to RightBound, the first fader-start
note differs from the cache (fires) and the on-air vector changes via the
`prev_event` assign heuristic (fires), yet the result is exactly the
45-byte on-air packet, not the 40-byte fader-start packet nor both. -/
theorem C1_counterexample :
    let e := DJM850
    let s2 := runEvents e (initState e) [Event.controller 17 5, Event.controller 11 127]
    let r := wait_handle_input_event e s2 (Event.noteon 102 0)
    some (ProDjLink.fader_start_pkt DEVICE_NAME 0 true) ≠ s2.last_fader_start_pkt ∧
    some (ProDjLink.onair_pkt DEVICE_NAME [false, false, false, false])
      ≠ s2.last_onair_pkt ∧
    r.1.last_fader_start_pkt = some (ProDjLink.fader_start_pkt DEVICE_NAME 0 true) ∧
    r.2 = ProDjLink.onair_pkt DEVICE_NAME [false, false, false, false] ∧
    r.2.length = 45 ∧
    (ProDjLink.fader_start_pkt DEVICE_NAME 0 true).length = 40 := by decide

/-- C1 (amended): a single call yields at most one packet: the returned
byte string is empty, a fader-start packet, or an on-air packet — never
two packets; when both fire on one note event only the on-air packet is
returned (see the counterexample). -/
theorem C1_single_packet_amended (e : DjmEnum) (s : MidiState) (ev : Event) :
    (wait_handle_input_event e s ev).2 = [] ∨
    (∃ i st, (wait_handle_input_event e s ev).2
        = ProDjLink.fader_start_pkt DEVICE_NAME i st) ∨
    (∃ oc, (wait_handle_input_event e s ev).2 = ProDjLink.onair_pkt DEVICE_NAME oc) := by
  have hshape := midiBranch_out_shape e (fixPrev s ev) ev
  simp only [wait_handle_input_event, onairStage]
  split
  · split
    · exact Or.inr (Or.inr ⟨_, rfl⟩)
    · rcases hshape with h | ⟨i, st, h⟩
      · exact Or.inl h
      · exact Or.inr (Or.inl ⟨i, st, h⟩)
  · rcases hshape with h | ⟨i, st, h⟩
    · exact Or.inl h
    · exact Or.inr (Or.inl ⟨i, st, h⟩)

/-- C4 counterexample: re-delivering the very same cross-fader
ControlChange (address 11, value 1) twice in a row emits a packet BOTH
times: the first delivery (moving up from 0) resolves to Middle, the
second (value equal to the now-stored 1) resolves to LeftBound, changing
the on-air vector again. -/
theorem C4_counterexample :
    let e := DJM250MK2
    let s4 := runEvents e (initState e)
      [Event.controller 17 10, Event.controller 18 10, Event.controller 96 0,
       Event.controller 11 0]
    let ev := Event.controller 11 1
    (wait_handle_input_event e s4 ev).2 ≠ [] ∧
    (wait_handle_input_event e (wait_handle_input_event e s4 ev).1 ev).2 ≠ [] := by decide

/-- C4 (amended): re-delivery of the same ControlChange may emit again
when the direction-biased hysteresis, fed by the value stored on the first
delivery, changes the computed on-air vector (see the counterexample).
What does hold: (1) every call that takes the on-air path caches the
packet it computed; (2) a call whose computed on-air packet equals the
cached one never emits an on-air packet — so two consecutive calls
computing identical on-air vectors never produce two on-air emissions. -/
theorem C4_emission_dedup_amended (e : DjmEnum) (s : MidiState) (ev : Event) :
    ((midiBranch e (fixPrev s ev) ev).2.2 = true →
      (wait_handle_input_event e s ev).1.last_onair_pkt
        = some (ProDjLink.onair_pkt DEVICE_NAME
            (onair_vector (midiBranch e (fixPrev s ev) ev).1))) ∧
    (s.last_onair_pkt
        = some (ProDjLink.onair_pkt DEVICE_NAME
            (onair_vector (midiBranch e (fixPrev s ev) ev).1)) →
      (wait_handle_input_event e s ev).2 = [] ∨
      ∃ i st, (wait_handle_input_event e s ev).2
        = ProDjLink.fader_start_pkt DEVICE_NAME i st) := by
  constructor
  · intro hsend
    simp only [wait_handle_input_event, onairStage, hsend, if_true]
  · intro hcache
    have hlast : (midiBranch e (fixPrev s ev) ev).1.last_onair_pkt = s.last_onair_pkt := by
      rw [midiBranch_fst_last_onair_pkt, fixPrev_last_onair_pkt]
    have hshape := midiBranch_out_shape e (fixPrev s ev) ev
    simp only [wait_handle_input_event, onairStage]
    split
    · rw [if_neg]
      · exact hshape
      · rw [hlast, hcache]
        exact fun hne => hne rfl
    · exact hshape

/-- Witness for C4 (amended): after one cross-fader event at value 64 the
cache holds the computed packet; re-delivering the same event computes the
same vector, so no on-air packet is emitted. -/
theorem C4_emission_dedup_amended_witness :
    (runEvents DJM250MK2 (initState DJM250MK2) [Event.controller 11 64]).last_onair_pkt
      = some (ProDjLink.onair_pkt DEVICE_NAME (onair_vector
          (midiBranch DJM250MK2
            (fixPrev (runEvents DJM250MK2 (initState DJM250MK2) [Event.controller 11 64])
              (Event.controller 11 64))
            (Event.controller 11 64)).1)) ∧
    ((wait_handle_input_event DJM250MK2
        (runEvents DJM250MK2 (initState DJM250MK2) [Event.controller 11 64])
        (Event.controller 11 64)).2 = [] ∨
      ∃ i st, (wait_handle_input_event DJM250MK2
        (runEvents DJM250MK2 (initState DJM250MK2) [Event.controller 11 64])
        (Event.controller 11 64)).2 = ProDjLink.fader_start_pkt DEVICE_NAME i st) :=
  ⟨by decide,
   (C4_emission_dedup_amended DJM250MK2
      (runEvents DJM250MK2 (initState DJM250MK2) [Event.controller 11 64])
      (Event.controller 11 64)).2 (by decide)⟩
